import Mathlib

/-!
Verification of the tcp_timearcs flow-classification core.

This file gives a shallow embedding of the flow-record classifier, the
connection-key resolver, the CSV row loaders and the packet-filtering
worker of the repository, together with a model of the TCP flow
reconstruction engine (whose implementation is not part of the sources;
it is modelled from the specification).  Theorems settle the claims of
the specification against these definitions.

Conventions of the embedding:
- JavaScript strings are Lean `String`s; nullable string fields are
  `Option String`; JavaScript truthiness of such a field is `truthy`.
- JavaScript numbers that may be `NaN`/missing are modelled by explicit
  sum types (`JSNum`, `JSNumber`); finite numbers are `Int`.
- Stateful accumulation (the CSV row loader, the flow table) is explicit
  state passing with `List.foldl`.
-/

/-! ## Flow records and the classifier predicates

Embedding of the flow classifier of `unnamed/part_007`
(`createOverviewChart`, lines 75-88, identical copy at lines 659-666),
which classifies flow records coming out of the reconstruction engine.
A flow record carries a nullable `closeType`, a `state` string, a
nullable `invalidReason`, the `establishmentComplete` flag and a
`startTime` (modelled as `Option Int`: `none` stands for a value whose
JavaScript `typeof` is not `number`). -/

structure FlowRec where
  closeType : Option String
  state : String
  invalidReason : Option String
  establishmentComplete : Bool
  startTime : Option Int
deriving Repr, DecidableEq

/-- JavaScript truthiness of a nullable string field: `null`/`undefined`
and the empty string are falsy, every other string is truthy. -/
def truthy : Option String → Bool
  | none => false
  | some s => !s.isEmpty

/-- Source: `const isInvalid = (f) => f && (f.closeType === 'invalid' ||
f.state === 'invalid' || !!f.invalidReason);` (part_007 line 80; the
`invalidFlows` filter at line 75 of part_007 and at line 69 of
overview_chart.js uses the same condition). -/
def isInvalid (f : FlowRec) : Bool :=
  f.closeType == some "invalid" || f.state == "invalid" || truthy f.invalidReason

/-- Source: part_007 line 81. -/
def isClosedGraceful (f : FlowRec) : Bool :=
  f.closeType == some "graceful"

/-- Source: part_007 line 82. -/
def isClosedAbortive (f : FlowRec) : Bool :=
  f.closeType == some "abortive"

/-- Source: part_007 line 83. -/
def isClosed (f : FlowRec) : Bool :=
  isClosedGraceful f || isClosedAbortive f

/-- Source: part_007 line 84. -/
def isOngoingCandidate (f : FlowRec) : Bool :=
  !isInvalid f && !isClosed f

/-- Source: `const isOpen = (f) => isOngoingCandidate(f) &&
(f.establishmentComplete === true || f.state === 'established' ||
f.state === 'data_transfer');` (part_007 lines 85 and 664). -/
def isOpen (f : FlowRec) : Bool :=
  isOngoingCandidate f &&
    (f.establishmentComplete || f.state == "established" || f.state == "data_transfer")

/-- Source: part_007 line 86. -/
def isIncomplete (f : FlowRec) : Bool :=
  isOngoingCandidate f && !isOpen f

/-- Source: `const ongoingClassifier = (f) => isOpen(f) ? 'open' :
(isIncomplete(f) ? 'incomplete' : null);` (part_007 line 88). -/
def ongoingClassifier (f : FlowRec) : Option String :=
  if isOpen f then some "open" else if isIncomplete f then some "incomplete" else none

/-- Number of the five classification predicates (invalid, graceful,
abortive, open, incomplete) that hold of a flow record. -/
def classCount (f : FlowRec) : Nat :=
  (isInvalid f).toNat + (isClosedGraceful f).toNat + (isClosedAbortive f).toNat
    + (isOpen f).toNat + (isIncomplete f).toNat

/-- A flow record that carries both a closing `closeType` and a non-null
`invalidReason`. -/
def overlapFlow : FlowRec :=
  { closeType := some "graceful", state := "closed", invalidReason := some "invalid_ack",
    establishmentComplete := true, startTime := some 0 }

/-- C1: counterexample.  The record `overlapFlow` (closeType
`'graceful'` combined with a non-null `invalidReason`) satisfies both
the invalid predicate and the graceful predicate, so the five
classification predicates are not mutually exclusive over all flow
records: this record receives two classifications, not exactly one. -/
theorem C1_counterexample :
    isInvalid overlapFlow = true ∧ isClosedGraceful overlapFlow = true ∧
      classCount overlapFlow = 2 := by
  decide

/-- C1 (amended): the five classification predicates are exhaustive
(every flow record, whatever combination of `closeType`, `state`,
`invalidReason` and `establishmentComplete` it carries, satisfies at
least one of them, and the classifier is a total function) and they are
mutually exclusive for every record that does not combine a closing
`closeType` (`'graceful'`/`'abortive'`) with an invalid marker (state
`'invalid'` or truthy `invalidReason`); a record combining both is
classified both invalid and graceful/abortive. -/
theorem C1_classifier_exhaustive_exclusive (f : FlowRec) :
    1 ≤ classCount f ∧
      ((isClosed f && (f.state == "invalid" || truthy f.invalidReason)) = false →
        classCount f = 1) := by
  have distinct : ∀ (o : Option String) (s1 s2 : String), s1 ≠ s2 →
      ((o == some s1) && (o == some s2)) = false := by
    intro o s1 s2 h
    rcases o with _ | c
    · simp
    · rcases eq_or_ne c s1 with rfl | hc
      · have h2 : (some c == some s2) = false := by simp [h]
        simp [h2]
      · have h1 : (some c == some s1) = false := by simp [hc]
        simp [h1]
  have key : ∀ v g a s r e : Bool, (v && g) = false → (v && a) = false → (g && a) = false →
      1 ≤ (v || s || r).toNat + g.toNat + a.toNat
          + ((!(v || s || r) && !(g || a)) && e).toNat
          + ((!(v || s || r) && !(g || a)) && !((!(v || s || r) && !(g || a)) && e)).toNat ∧
        (((g || a) && (s || r)) = false →
          (v || s || r).toNat + g.toNat + a.toNat
            + ((!(v || s || r) && !(g || a)) && e).toNat
            + ((!(v || s || r) && !(g || a)) && !((!(v || s || r) && !(g || a)) && e)).toNat
            = 1) := by
    decide
  have h1 := distinct f.closeType "invalid" "graceful" (by decide)
  have h2 := distinct f.closeType "invalid" "abortive" (by decide)
  have h3 := distinct f.closeType "graceful" "abortive" (by decide)
  simp only [classCount, isInvalid, isClosedGraceful, isClosedAbortive, isOpen, isIncomplete,
    isOngoingCandidate, isClosed]
  exact key (f.closeType == some "invalid") (f.closeType == some "graceful")
    (f.closeType == some "abortive") (f.state == "invalid") (truthy f.invalidReason)
    (f.establishmentComplete || f.state == "established" || f.state == "data_transfer")
    h1 h2 h3

/-- A flow record that closed gracefully, with no invalid marker. -/
def plainGracefulFlow : FlowRec :=
  { closeType := some "graceful", state := "closed", invalidReason := none,
    establishmentComplete := true, startTime := some 0 }

/-- C1: witness for the amended theorem at a concrete record with no
overlap. -/
theorem C1_classifier_witness :
    (isClosed plainGracefulFlow &&
      (plainGracefulFlow.state == "invalid" || truthy plainGracefulFlow.invalidReason)) = false ∧
    classCount plainGracefulFlow = 1 :=
  ⟨by decide, (C1_classifier_exhaustive_exclusive plainGracefulFlow).2 (by decide)⟩

/-! ## Connection key resolver

Embedding of `makeConnectionKey` from the packet-filtering worker
(source embedded in BRUSH_SELECTION_GUIDE.md, lines 407-413):

```
function makeConnectionKey(src_ip, src_port, dst_ip, dst_port) {
  const sp = (src_port === undefined || src_port === null || isNaN(src_port)) ? 0 : Number(src_port);
  const dp = (dst_port === undefined || dst_port === null || isNaN(dst_port)) ? 0 : Number(dst_port);
  const a = `...`; const b = `...`;
  return a < b ? a : b;
}
```

A port value as seen by the worker is either `undefined`, `null`, a
value whose numeric coercion is NaN, or a finite number. -/

inductive JSNum where
  | undef
  | null
  | nan
  | num (n : Int)
deriving Repr, DecidableEq

/-- The port fallback of `makeConnectionKey`: `undefined`, `null` and
NaN values become `0`, a number is kept (`Number(p)` on a number is the
identity). -/
def resolvePort : JSNum → Int
  | .num n => n
  | _ => 0

/-- One `ip:port` half of the template literal. -/
def endpointString (ip : String) (port : Int) : String :=
  ip ++ ":" ++ toString port

/-- Lexicographic comparison of character lists, by code point: the
order the JavaScript `<` puts on strings (JavaScript compares UTF-16
code units; on the code-point values this is the same order for the
ASCII keys at hand). -/
def charListLt : List Char → List Char → Bool
  | [], [] => false
  | [], _ :: _ => true
  | _ :: _, [] => false
  | a :: as, b :: bs =>
      if a < b then true else if b < a then false else charListLt as bs

/-- JavaScript `<` on strings. -/
def jsStrLt (a b : String) : Bool :=
  charListLt a.data b.data

/-- Source: the worker's `makeConnectionKey` (BRUSH_SELECTION_GUIDE.md
lines 407-413). -/
def makeConnectionKey (src_ip : String) (src_port : JSNum)
    (dst_ip : String) (dst_port : JSNum) : String :=
  let sp := resolvePort src_port
  let dp := resolvePort dst_port
  let a := endpointString src_ip sp ++ "-" ++ endpointString dst_ip dp
  let b := endpointString dst_ip dp ++ "-" ++ endpointString src_ip sp
  if jsStrLt a b then a else b

/-- The lexicographic comparison is asymmetric. -/
theorem charListLt_asymm :
    ∀ as bs : List Char, charListLt as bs = true → charListLt bs as = false := by
  intro as
  induction as with
  | nil =>
    intro bs h
    cases bs with
    | nil => simp [charListLt] at h
    | cons b bs => rfl
  | cons a as ih =>
    intro bs h
    cases bs with
    | nil => simp [charListLt] at h
    | cons b bs =>
      unfold charListLt at h ⊢
      by_cases h1 : a < b
      · rw [if_neg (asymm h1), if_pos h1]
      · rw [if_neg h1] at h
        by_cases h2 : b < a
        · rw [if_pos h2] at h
          simp at h
        · rw [if_neg h2] at h
          rw [if_neg h2, if_neg h1]
          exact ih bs h

/-- Two lists neither of which is lexicographically below the other are
equal. -/
theorem charListLt_antisymm :
    ∀ as bs : List Char, charListLt as bs = false → charListLt bs as = false → as = bs := by
  intro as
  induction as with
  | nil =>
    intro bs h _
    cases bs with
    | nil => rfl
    | cons b bs => simp [charListLt] at h
  | cons a as ih =>
    intro bs h h'
    cases bs with
    | nil => simp [charListLt] at h'
    | cons b bs =>
      unfold charListLt at h h'
      by_cases h1 : a < b
      · rw [if_pos h1] at h
        simp at h
      · by_cases h2 : b < a
        · rw [if_pos h2] at h'
          simp at h'
        · rw [if_neg h1, if_neg h2] at h
          rw [if_neg h2, if_neg h1] at h'
          have hab : a = b := le_antisymm (not_lt.mp h2) (not_lt.mp h1)
          rw [hab, ih bs h h']

/-- The branch `a < b ? a : b` of the resolver is symmetric in its
comparison direction. -/
theorem ifLtComm (a b : String) :
    (if jsStrLt a b then a else b) = (if jsStrLt b a then b else a) := by
  cases hab : jsStrLt a b with
  | true =>
    have hba : jsStrLt b a = false := charListLt_asymm a.data b.data hab
    rw [hba]
    simp
  | false =>
    cases hba : jsStrLt b a with
    | true => simp
    | false =>
      have hdata : a.data = b.data := charListLt_antisymm a.data b.data hab hba
      have hab2 : a = b := by
        cases a; cases b
        exact congrArg String.mk hdata
      rw [hab2]

/-- C2: the connection key is direction independent: for every pair of
IP strings and every pair of port values (in any of their JavaScript
shapes), the key computed for a packet from (A,pA) to (B,pB) equals the
key computed for a packet from (B,pB) to (A,pA). -/
theorem C2_key_symmetric (A : String) (pA : JSNum) (B : String) (pB : JSNum) :
    makeConnectionKey A pA B pB = makeConnectionKey B pB A pA := by
  simp only [makeConnectionKey]
  exact ifLtComm _ _

/-- C7: for a packet whose `src_port` or `dst_port` is absent
(`undefined`), `null`, or not a number (NaN), the resolver substitutes
port `0` for that value and still returns a key: the computed key is
exactly the key of the same packet with port `0`, on either side, so
the resolver is total on malformed ports (it is a Lean function into
`String`, hence never throws). -/
theorem C7_port_fallback (A B : String) (q : JSNum) :
    (makeConnectionKey A JSNum.undef B q = makeConnectionKey A (JSNum.num 0) B q) ∧
    (makeConnectionKey A JSNum.null B q = makeConnectionKey A (JSNum.num 0) B q) ∧
    (makeConnectionKey A JSNum.nan B q = makeConnectionKey A (JSNum.num 0) B q) ∧
    (makeConnectionKey A q B JSNum.undef = makeConnectionKey A q B (JSNum.num 0)) ∧
    (makeConnectionKey A q B JSNum.null = makeConnectionKey A q B (JSNum.num 0)) ∧
    (makeConnectionKey A q B JSNum.nan = makeConnectionKey A q B (JSNum.num 0)) :=
  ⟨rfl, rfl, rfl, rfl, rfl, rfl⟩

/-! ## Invalid-reason assignment and accounting

Embedding of the invalid-flow bookkeeping of overview_chart.js
(identical copy in part_007): the `invalidOrder` taxonomy (lines
99-106), `getInvalidReason` (lines 108-114), the `invalidFlows` filter
(line 69, which is the `isInvalid` condition above), the `binReasonMap`
accounting loop (lines 135-148), and the legend totals of part_007
(lines 613-617). -/

/-- Source: the `invalidOrder` array (overview_chart.js lines 99-106). -/
def invalidOrder : List String :=
  ["invalid_ack", "rst_during_handshake", "incomplete_no_synack",
   "incomplete_no_ack", "invalid_synack", "unknown_invalid"]

/-- Source (overview_chart.js lines 108-114):

```
const getInvalidReason = (f) => {
    if (!f) return null;
    const r = f.invalidReason;
    if (r && invalidOrder.includes(r)) return r;
    if (f.closeType === 'invalid' || f.state === 'invalid') return 'unknown_invalid';
    return null;
};
```

The `!f` guard is dropped: the embedding works on non-null flow
records. -/
def getInvalidReason (f : FlowRec) : Option String :=
  if truthy f.invalidReason && invalidOrder.contains (f.invalidReason.getD "") then
    f.invalidReason
  else if f.closeType == some "invalid" || f.state == "invalid" then some "unknown_invalid"
  else none

/-- The flows that the `binReasonMap` loop (overview_chart.js lines
135-148) actually folds into the per-reason histogram bins: members of
`invalidFlows` (the `isInvalid` condition) whose `startTime` is a
number and whose `getInvalidReason` is non-null; the loop `continue`s
past every other invalid flow.  (The bin index computed from
`startTime` only distributes these flows across bins; it never drops
one, so it is irrelevant to the accounting claim.) -/
def binnedInvalidFlows (flows : List FlowRec) : List FlowRec :=
  (flows.filter fun f => isInvalid f).filter
    fun f => f.startTime.isSome && (getInvalidReason f).isSome

/-- The reason under which the legend totals of part_007 (lines
613-617) count an invalid flow: `let r = getInvalidReason(f); if (!r)
r = 'unknown_invalid';`. -/
def legendReason (f : FlowRec) : String :=
  (getInvalidReason f).getD "unknown_invalid"

/-- A flow record whose only invalid marker is a stored reason outside
the six-reason taxonomy. -/
def strayReasonFlow : FlowRec :=
  { closeType := none, state := "established", invalidReason := some "banana",
    establishmentComplete := true, startTime := some 0 }

/-- C3: counterexample.  `strayReasonFlow` is selected into
`invalidFlows` (its non-null `invalidReason` makes `isInvalid` true),
its stored reason is not one of the five specific reasons, yet
`getInvalidReason` returns null rather than `unknown_invalid` (its
`closeType` and `state` are not `'invalid'`), and the `binReasonMap`
accounting loop silently drops it: the flow lands in no histogram
bin. -/
theorem C3_counterexample :
    isInvalid strayReasonFlow = true ∧
    getInvalidReason strayReasonFlow = none ∧
    binnedInvalidFlows [strayReasonFlow] = [] := by
  decide

/-- C3 (amended): `getInvalidReason` only ever returns reasons from the
six-reason taxonomy, and for a flow marked invalid it returns a reason
exactly when the flow's `closeType` or `state` is `'invalid'` or its
stored reason is one of the six recognized reasons; an invalid flow
whose sole marker is an unrecognized non-empty stored reason gets null
and is omitted from the per-reason histogram accounting (the legend
totals, by contrast, re-coerce null to `unknown_invalid`). -/
theorem C3_reason_assignment (f : FlowRec) :
    (∀ r, getInvalidReason f = some r → invalidOrder.contains r = true) ∧
    (isInvalid f = true →
      ((getInvalidReason f).isSome = true ↔
        (f.closeType == some "invalid" || f.state == "invalid"
          || invalidOrder.contains (f.invalidReason.getD "")) = true)) := by
  constructor
  · intro r hr
    unfold getInvalidReason at hr
    split_ifs at hr with h1 h2
    · obtain ⟨ht, hc⟩ : truthy f.invalidReason = true ∧
          invalidOrder.contains (f.invalidReason.getD "") = true := by simpa using h1
      rw [hr] at hc
      simpa using hc
    · cases hr
      decide
  · intro hinv
    unfold getInvalidReason
    split_ifs with h1 h2
    · obtain ⟨ht, hc⟩ : truthy f.invalidReason = true ∧
          invalidOrder.contains (f.invalidReason.getD "") = true := by simpa using h1
      have hsome : f.invalidReason.isSome = true := by
        cases hi : f.invalidReason with
        | none => rw [hi] at ht; exact absurd ht (by decide)
        | some s => rfl
      constructor
      · intro _
        have hmem : f.invalidReason.getD "" ∈ invalidOrder := by simpa using hc
        simp [hmem]
      · intro _
        exact hsome
    · simp [h2]
    · have hcontains : invalidOrder.contains (f.invalidReason.getD "") = false := by
        cases hi : f.invalidReason with
        | none => decide
        | some s =>
          simp only [hi, Option.getD_some]
          by_contra hcc
          rw [Bool.not_eq_false] at hcc
          apply h1
          simp only [hi, Option.getD_some, truthy]
          have hmem : s = "invalid_ack" ∨ s = "rst_during_handshake" ∨
              s = "incomplete_no_synack" ∨ s = "incomplete_no_ack" ∨
              s = "invalid_synack" ∨ s = "unknown_invalid" := by
            simpa [invalidOrder] using hcc
          rcases hmem with rfl | rfl | rfl | rfl | rfl | rfl <;> decide
      have hnotmem : f.invalidReason.getD "" ∉ invalidOrder := by simpa using hcontains
      have h2' : (f.closeType == some "invalid" || f.state == "invalid") = false := by
        simpa using h2
      simp [h2', hnotmem]

/-- C3: witness for the amended theorem at the stray-reason record (its
hypothesis `isInvalid = true` holds there). -/
theorem C3_reason_witness :
    isInvalid strayReasonFlow = true ∧
    ((getInvalidReason strayReasonFlow).isSome = true ↔
      (strayReasonFlow.closeType == some "invalid" || strayReasonFlow.state == "invalid"
        || invalidOrder.contains (strayReasonFlow.invalidReason.getD "")) = true) :=
  ⟨by decide, (C3_reason_assignment strayReasonFlow).2 (by decide)⟩

/-! ## CSV row loading

Embedding of the two row-ingestion paths of attack_timearcs.js.

The streaming path (`parseCsvStream`, lines 140-167) coerces the
timestamp with `toNum` (`const n = +v; return isFinite(n) ? n : NaN;`),
counts every non-empty row in `totalRows`, and pushes a row into
`combinedData` (counting it in `validRows`) only when its coerced
timestamp is finite and its two IPs are valid.

The batch path (`transformRows`, lines 208-228) coerces the timestamp
with `toNumber` (line 487-489: `const n = +v; return isFinite(n) ? n :
0;`) and then filters on `isFinite(d.timestamp)`.

The result of the JavaScript unary-plus coercion of a CSV field is
either a finite number or not (NaN or an infinity). -/

inductive JSNumber where
  | finite (n : Int)
  | notFinite
deriving Repr, DecidableEq

/-- JavaScript `isFinite` on a coerced value. -/
def jsIsFinite : JSNumber → Bool
  | .finite _ => true
  | .notFinite => false

/-- Source: `function toNum(v) { const n = +v; return isFinite(n) ? n :
NaN; }` (attack_timearcs.js line 140). -/
def toNum (c : JSNumber) : JSNumber :=
  if jsIsFinite c then c else .notFinite

/-- Source: `function toNumber(v) { const n = +v; return isFinite(n) ?
n : 0; }` (attack_timearcs.js lines 487-489).  The fallback is the
finite number 0, not NaN. -/
def toNumber (c : JSNumber) : JSNumber :=
  if jsIsFinite c then c else .finite 0

/-- A parsed CSV row, reduced to the fields the ingestion predicates
inspect: the unary-plus coercion of its timestamp field and its two
decoded IP strings (the header-to-object mapping and the attack-label
decoding carry no ingestion logic). -/
structure CsvRow where
  timestampField : JSNumber
  src_ip : String
  dst_ip : String
deriving Repr, DecidableEq

/-- A record of the in-memory dataset (`combinedData` entries and
`transformRows` output), reduced to the same fields. -/
structure DataRec where
  timestamp : JSNumber
  src_ip : String
  dst_ip : String
deriving Repr, DecidableEq

/-- JavaScript `String.prototype.startsWith`, as a character-list
prefix test. -/
def strStartsWith (s p : String) : Bool :=
  p.data.isPrefixOf s.data

/-- Source: `rec.src_ip && rec.src_ip !== 'N/A' &&
!String(rec.src_ip).startsWith('IP_')` (attack_timearcs.js lines
161-162 and 219-220); string truthiness is non-emptiness. -/
def validIp (s : String) : Bool :=
  !s.isEmpty && s != "N/A" && !(strStartsWith s "IP_")

/-- The loader state of the streaming path: total row count, valid row
count and accumulated dataset. -/
structure LoadState where
  totalRows : Nat
  validRows : Nat
  data : List DataRec
deriving Repr, DecidableEq

/-- Source: `handleRow` (attack_timearcs.js lines 142-167): the row is
counted in `totalRows`, its record is built with `toNum(obj.timestamp)`,
and it is pushed and counted in `validRows` only when
`isFinite(rec.timestamp)` holds and both IPs are valid. -/
def handleRow (st : LoadState) (row : CsvRow) : LoadState :=
  let r : DataRec :=
    { timestamp := toNum row.timestampField, src_ip := row.src_ip, dst_ip := row.dst_ip }
  let keep := jsIsFinite r.timestamp && validIp r.src_ip && validIp r.dst_ip
  { totalRows := st.totalRows + 1,
    validRows := if keep then st.validRows + 1 else st.validRows,
    data := if keep then st.data ++ [r] else st.data }

/-- The whole streaming ingestion over a list of (non-empty) rows. -/
def loadRows (rows : List CsvRow) : LoadState :=
  rows.foldl handleRow { totalRows := 0, validRows := 0, data := [] }

/-- Source: `transformRows` (attack_timearcs.js lines 208-228): map
every row to a record with `toNumber(d.timestamp)`, then filter on
`isFinite(d.timestamp)` and IP validity. -/
def transformRows (rows : List CsvRow) : List DataRec :=
  (rows.map fun d =>
      { timestamp := toNumber d.timestampField, src_ip := d.src_ip,
        dst_ip := d.dst_ip : DataRec }).filter
    fun d => jsIsFinite d.timestamp && validIp d.src_ip && validIp d.dst_ip

/-- A row whose timestamp field does not coerce to a finite number
(for example the string `"abc"`), with two well-formed IPs. -/
def badTimestampRow : CsvRow :=
  { timestampField := .notFinite, src_ip := "10.0.0.1", dst_ip := "10.0.0.2" }

/-- C6: on the row with an unparseable timestamp, the streaming loader
skips the row (counts it in `totalRows`, not in `validRows`, and folds
nothing into the dataset — the skip count `totalRows - validRows` is 1)
and keeps processing subsequent rows; but the batch path
`transformRows` keeps the very same row, with its timestamp silently
coerced to 0, because `toNumber` maps NaN to the finite number 0 and so
`transformRows`' own `isFinite(d.timestamp)` filter can never reject a
row.  The two cited ingestion paths therefore disagree on that row, and
the batch path contradicts its own `hasValidTimestamp` check. -/
theorem C6_unparseable_timestamp :
    loadRows [badTimestampRow] =
      { totalRows := 1, validRows := 0, data := [] } ∧
    loadRows [badTimestampRow,
        { timestampField := .finite 5, src_ip := "10.0.0.1", dst_ip := "10.0.0.2" }] =
      { totalRows := 2, validRows := 1,
        data := [{ timestamp := .finite 5, src_ip := "10.0.0.1", dst_ip := "10.0.0.2" }] } ∧
    transformRows [badTimestampRow] =
      [{ timestamp := .finite 0, src_ip := "10.0.0.1", dst_ip := "10.0.0.2" }] ∧
    (∀ row : CsvRow, jsIsFinite (toNumber row.timestampField) = true) := by
  refine ⟨by decide, by decide, by decide, ?_⟩
  intro row
  unfold toNumber
  cases h : row.timestampField <;> simp [jsIsFinite]

/-! ## TCP flow reconstruction engine (modelled from the specification)

The sources contain only the documentation of the engine (the
`TCP_STATES` constant table in part_004 lines 191-207 and the feature
list around it) and its consumers (the classifier above); the
implementation (`reconstructFlowsFromCSVAsync` and its state machine)
is not among the source files.  The definitions below are therefore
modelled from the specification (sections 4.2-4.4 and the testable
properties of section 8), over the state set documented in part_004
(`S_NEW, S_INIT, S_SYN_RCVD, S_EST, S_FIN_1, S_FIN_2, S_CLOSING,
S_CLOSED, S_ABORTED`) extended with the INVALID state of spec section
4.2. -/

inductive TcpState where
  | NEW
  | INIT
  | SYN_RCVD
  | ESTABLISHED
  | FIN_1
  | FIN_2
  | CLOSING
  | CLOSED
  | ABORTED
  | INVALID
deriving Repr, DecidableEq

/-- Modelled from the spec: the closed flag-kind enum of section 9
(`SYN | SYNACK | ACK | PSHACK | FIN | FINACK | RST | OTHER`), decoded
once at ingestion from the flag bitmask. -/
inductive FlagKind where
  | SYN
  | SYNACK
  | ACK
  | PSHACK
  | FIN
  | FINACK
  | RST
  | OTHER
deriving Repr, DecidableEq

/-- Which endpoint of a flow sent a packet. -/
inductive Side where
  | initiator
  | responder
deriving Repr, DecidableEq

/-- A packet as fed to the engine: 4-tuple plus decoded flag kind. -/
structure TPacket where
  src_ip : String
  src_port : Int
  dst_ip : String
  dst_port : Int
  flag : FlagKind
deriving Repr, DecidableEq

/-- Modelled from the spec: the mutable flow record of section 3 (the
fields the claims inspect; `finSide` records which side sent the first
FIN so that only "a second FIN from the other side" advances to
FIN_2). -/
structure MFlow where
  initiator : String
  initiatorPort : Int
  responder : String
  responderPort : Int
  state : TcpState
  establishmentComplete : Bool
  dataTransferStarted : Bool
  closeType : Option String
  invalidReason : Option String
  finSide : Option Side
deriving Repr, DecidableEq

/-- Pre-terminal handshake states (`NEW, INIT, SYN_RCVD` of the
`rst_during_handshake` taxonomy row). -/
def isHandshakeState : TcpState → Bool
  | .NEW | .INIT | .SYN_RCVD => true
  | _ => false

/-- Terminal states of the machine (`CLOSED/ABORTED/INVALID`). -/
def isTerminalState : TcpState → Bool
  | .CLOSED | .ABORTED | .INVALID => true
  | _ => false

/-- Modelled from the spec: the state names as strings of the flow
output record consumed by the classifier code (the code compares
against `'established'` and `'invalid'`, and part_000 line 289 against
`'closed'`). -/
def stateName : TcpState → String
  | .NEW => "new"
  | .INIT => "init"
  | .SYN_RCVD => "syn_rcvd"
  | .ESTABLISHED => "established"
  | .FIN_1 => "fin_1"
  | .FIN_2 => "fin_2"
  | .CLOSING => "closing"
  | .CLOSED => "closed"
  | .ABORTED => "aborted"
  | .INVALID => "invalid"

/-- Modelled from the spec: the transition rules of section 4.2.  RST
is handled first, in every pre-terminal state, mirroring "pre-empts
every other transition"; per the taxonomy row `rst_during_handshake`
and the section 8 property "RST during handshake", an RST in a
handshake state routes to INVALID with that reason, while an RST from
ESTABLISHED onward aborts.  Sequence violations route to INVALID with
the taxonomy reason (`invalid_synack` for a SYN+ACK with no preceding
SYN, `invalid_ack` for an ACK out of order relative to SYN+ACK,
`unknown_invalid` otherwise); packets consistent with the current state
that trigger no rule (a plain ACK in ESTABLISHED, a duplicate FIN from
the same side) leave the flow unchanged.  The final ACK of the second
FIN closes the flow (CLOSING is the transient hop of "CLOSING →
CLOSED").  Terminal states absorb every packet. -/
def step (f : MFlow) (s : Side) (flag : FlagKind) : MFlow :=
  if isTerminalState f.state then f
  else if flag == .RST then
    if isHandshakeState f.state then
      { f with state := .INVALID, invalidReason := some "rst_during_handshake" }
    else
      { f with state := .ABORTED }
  else
    match f.state, flag, s with
    | .NEW, .SYN, .initiator => { f with state := .INIT }
    | .NEW, .SYNACK, _ => { f with state := .INVALID, invalidReason := some "invalid_synack" }
    | .NEW, .ACK, _ => { f with state := .INVALID, invalidReason := some "invalid_ack" }
    | .INIT, .SYN, .initiator => f
    | .INIT, .SYNACK, .responder => { f with state := .SYN_RCVD }
    | .INIT, .ACK, _ => { f with state := .INVALID, invalidReason := some "invalid_ack" }
    | .SYN_RCVD, .ACK, .initiator =>
        { f with state := .ESTABLISHED, establishmentComplete := true }
    | .SYN_RCVD, .SYNACK, .responder => f
    | .ESTABLISHED, .PSHACK, _ => { f with dataTransferStarted := true }
    | .ESTABLISHED, .ACK, _ => f
    | .ESTABLISHED, .FIN, s2 | .ESTABLISHED, .FINACK, s2 =>
        { f with state := .FIN_1, finSide := some s2 }
    | .FIN_1, .FIN, s2 | .FIN_1, .FINACK, s2 =>
        if f.finSide == some s2 then f else { f with state := .FIN_2 }
    | .FIN_1, .ACK, _ => f
    | .FIN_2, .ACK, _ | .FIN_2, .FINACK, _ => { f with state := .CLOSED }
    | .CLOSING, .ACK, _ => { f with state := .CLOSED }
    | _, _, _ => { f with state := .INVALID, invalidReason := some "unknown_invalid" }

/-- Modelled from the spec: finalization at timeout / end-of-stream
(sections 4.3, 4.4 and 8).  A CLOSED flow is graceful, an ABORTED flow
abortive, an INVALID flow invalid (keeping its recorded reason, else
the `unknown_invalid` catch-all).  A flow swept while its handshake is
incomplete receives the taxonomy reason (`incomplete_no_synack` after
only a SYN, per the section 8 "orphan SYN" property;
`incomplete_no_ack` after SYN and SYN+ACK) and closeType invalid.  A
flow swept in ESTABLISHED or a FIN-wait state stays unclosed
(`closeType` null): the classifier reports it open/incomplete. -/
def finalize (f : MFlow) : MFlow :=
  match f.state with
  | .CLOSED => { f with closeType := some "graceful" }
  | .ABORTED => { f with closeType := some "abortive" }
  | .INVALID =>
      { f with
        closeType := some "invalid"
        invalidReason := some (f.invalidReason.getD "unknown_invalid") }
  | .INIT =>
      { f with
        closeType := some "invalid"
        invalidReason := some "incomplete_no_synack" }
  | .SYN_RCVD =>
      { f with
        closeType := some "invalid"
        invalidReason := some "incomplete_no_ack" }
  | _ => f

/-- Modelled from the spec: a flow is created on the first packet of an
unseen key, that packet's sender being the initiator (section 9:
"first packet defines initiator"). -/
def newFlow (p : TPacket) : MFlow :=
  { initiator := p.src_ip, initiatorPort := p.src_port,
    responder := p.dst_ip, responderPort := p.dst_port,
    state := .NEW, establishmentComplete := false, dataTransferStarted := false,
    closeType := none, invalidReason := none, finSide := none }

/-- Which side of an existing flow a packet was sent from. -/
def sideOf (f : MFlow) (p : TPacket) : Side :=
  if p.src_ip == f.initiator && p.src_port == f.initiatorPort then .initiator else .responder

/-- One packet folded into one flow. -/
def stepPacket (f : MFlow) (p : TPacket) : MFlow :=
  step f (sideOf f p) p.flag

/-- A single flow built from a first packet and the rest of its
packets (all on one connection key). -/
def runFlow (p : TPacket) (ps : List TPacket) : MFlow :=
  ps.foldl stepPacket (stepPacket (newFlow p) p)

/-- The connection key of an engine packet, via the resolver. -/
def packetKey (p : TPacket) : String :=
  makeConnectionKey p.src_ip (JSNum.num p.src_port) p.dst_ip (JSNum.num p.dst_port)

/-- Modelled from the spec: the flow table (section 2) as an
association list keyed by connection key: lookup-or-create, then one
state-machine step. -/
def foldPacket (tbl : List (String × MFlow)) (p : TPacket) : List (String × MFlow) :=
  let k := packetKey p
  match tbl.find? (fun e => e.1 == k) with
  | some _ => tbl.map fun e => if e.1 == k then (e.1, stepPacket e.2 p) else e
  | none => tbl ++ [(k, stepPacket (newFlow p) p)]

/-- The engine over a packet stream: fold every packet into the table. -/
def processAll (ps : List TPacket) : List (String × MFlow) :=
  ps.foldl foldPacket []

/-- End-of-stream / timeout sweep: finalize every flow of the table. -/
def finalizeAll (tbl : List (String × MFlow)) : List (String × MFlow) :=
  tbl.map fun e => (e.1, finalize e.2)

/-- The flow record handed to the classifier code, with the state
rendered as its string name (`startTime` is irrelevant to
classification and set to 0). -/
def toFlowRec (f : MFlow) : FlowRec :=
  { closeType := f.closeType, state := stateName f.state,
    invalidReason := f.invalidReason,
    establishmentComplete := f.establishmentComplete, startTime := some 0 }

/-- Endpoint A of the concrete scenarios. -/
def hostA : String := "192.168.1.10"

/-- Endpoint B of the concrete scenarios. -/
def hostB : String := "10.0.0.80"

/-- A packet from A to B with the given flag. -/
def pktAB (fl : FlagKind) : TPacket :=
  { src_ip := hostA, src_port := 51000, dst_ip := hostB, dst_port := 80, flag := fl }

/-- A packet from B to A with the given flag. -/
def pktBA (fl : FlagKind) : TPacket :=
  { src_ip := hostB, src_port := 80, dst_ip := hostA, dst_port := 51000, flag := fl }

/-- C4: orphan SYN.  Feeding the engine a single `SYN(A→B)` packet with
no further activity on that key and then sweeping (end-of-stream /
timeout finalization) yields exactly one flow, with `closeType`
`"invalid"` and `invalidReason` `"incomplete_no_synack"`. -/
theorem C4_orphan_syn :
    (finalizeAll (processAll [pktAB .SYN])).map
        (fun e => (e.2.closeType, e.2.invalidReason, e.2.establishmentComplete))
      = [(some "invalid", some "incomplete_no_synack", false)] := by
  decide

/-- C9: happy path.  On the packet sequence `[SYN(A→B), SYN+ACK(B→A),
ACK(A→B), PSH+ACK(A→B), FIN(A→B), FIN+ACK(B→A), ACK(A→B)]` the engine
produces exactly one flow, in state CLOSED, with closeType
`"graceful"`, `establishmentComplete` true and `dataTransferStarted`
true. -/
theorem C9_happy_path :
    (finalizeAll (processAll [pktAB .SYN, pktBA .SYNACK, pktAB .ACK, pktAB .PSHACK,
        pktAB .FIN, pktBA .FINACK, pktAB .ACK])).map
        (fun e => (e.2.state, e.2.closeType, e.2.establishmentComplete,
          e.2.dataTransferStarted))
      = [(TcpState.CLOSED, some "graceful", true, true)] := by
  decide

/-- Invariant of every flow the engine can hold before finalization: no
`closeType` yet (only finalization assigns one), an `invalidReason`
only in the INVALID state, and `establishmentComplete` set from
ESTABLISHED onward (it is set by the very transition that enters
ESTABLISHED, and FIN_1/FIN_2/CLOSING/CLOSED are reachable only from
there). -/
def MInv (f : MFlow) : Prop :=
  f.closeType = none ∧
  (f.state ≠ TcpState.INVALID → f.invalidReason = none) ∧
  ((f.state = TcpState.ESTABLISHED ∨ f.state = TcpState.FIN_1 ∨
      f.state = TcpState.FIN_2 ∨ f.state = TcpState.CLOSING ∨
      f.state = TcpState.CLOSED) → f.establishmentComplete = true)

/-- A freshly created flow satisfies the invariant. -/
theorem newFlow_inv (p : TPacket) : MInv (newFlow p) := by
  refine ⟨rfl, fun _ => rfl, ?_⟩
  intro h
  simp [newFlow] at h

/-- One step of the machine preserves the invariant. -/
theorem step_inv (f : MFlow) (s : Side) (fl : FlagKind) (h : MInv f) :
    MInv (step f s fl) := by
  obtain ⟨hct, hir, hest⟩ := h
  cases hst : f.state <;> cases fl <;> cases s <;>
    simp_all [step, MInv, isTerminalState, isHandshakeState] <;>
    split <;> simp_all

/-- The invariant is preserved along any packet fold. -/
theorem foldl_inv (ps : List TPacket) (f : MFlow) (h : MInv f) :
    MInv (ps.foldl stepPacket f) := by
  induction ps generalizing f with
  | nil => exact h
  | cons p ps ih => exact ih _ (step_inv _ _ _ h)

/-- Every single-key run of the engine satisfies the invariant. -/
theorem runFlow_inv (p : TPacket) (ps : List TPacket) : MInv (runFlow p ps) :=
  foldl_inv ps _ (step_inv _ _ _ (newFlow_inv p))

/-- For every invariant-satisfying flow that the sweep leaves ongoing
(the classifier's ongoing-candidate test holds of its record), the
classifier reports it open exactly when `establishmentComplete` is
true and incomplete exactly when it is false. -/
theorem finalize_classification (f : MFlow) (h : MInv f)
    (hcand : isOngoingCandidate (toFlowRec (finalize f)) = true) :
    isOpen (toFlowRec (finalize f)) = f.establishmentComplete ∧
    isIncomplete (toFlowRec (finalize f)) = !f.establishmentComplete := by
  obtain ⟨hct, hir, hest⟩ := h
  cases hst : f.state <;>
    simp_all [finalize, toFlowRec, stateName, isOngoingCandidate, isInvalid, isClosed,
      isClosedGraceful, isClosedAbortive, isOpen, isIncomplete, truthy]

/-- C5: counterexample.  The orphan-SYN flow is finalized by the sweep
while idle without FIN/RST, with `establishmentComplete = false`, yet
the classifier does not classify it `incomplete`: the sweep stamped it
`closeType "invalid"` / `invalidReason "incomplete_no_synack"` (the
spec's own orphan-SYN property), so it is classified invalid and
`ongoingClassifier` returns null.  Hence "classified 'incomplete' if
and only if establishmentComplete is false" fails for swept flows. -/
theorem C5_counterexample :
    (finalize (runFlow (pktAB .SYN) [])).establishmentComplete = false ∧
    isIncomplete (toFlowRec (finalize (runFlow (pktAB .SYN) []))) = false ∧
    isInvalid (toFlowRec (finalize (runFlow (pktAB .SYN) []))) = true ∧
    ongoingClassifier (toFlowRec (finalize (runFlow (pktAB .SYN) []))) = none := by
  decide

/-- C5 (amended): for every flow finalized by the timeout sweep or
end-of-stream that the sweep leaves ongoing — that is, whose finalized
record carries no invalid marker and no closing closeType, so that the
classifier's ongoing-candidate test holds — the flow is classified
open exactly when `establishmentComplete` is true and incomplete
exactly when it is false.  A swept flow stamped with an invalid marker
(such as an incomplete handshake given `incomplete_no_synack` /
`incomplete_no_ack`) is classified invalid instead, whatever its
`establishmentComplete`. -/
theorem C5_swept_classification (p : TPacket) (ps : List TPacket)
    (hcand : isOngoingCandidate (toFlowRec (finalize (runFlow p ps))) = true) :
    isOpen (toFlowRec (finalize (runFlow p ps))) = (runFlow p ps).establishmentComplete ∧
    isIncomplete (toFlowRec (finalize (runFlow p ps))) =
      !(runFlow p ps).establishmentComplete :=
  finalize_classification (runFlow p ps) (runFlow_inv p ps) hcand

/-- C5: witness for the amended theorem on a flow swept right after a
completed handshake (ongoing, established, classified open). -/
theorem C5_swept_witness :
    isOngoingCandidate
        (toFlowRec (finalize (runFlow (pktAB .SYN) [pktBA .SYNACK, pktAB .ACK]))) = true ∧
    isOpen (toFlowRec (finalize (runFlow (pktAB .SYN) [pktBA .SYNACK, pktAB .ACK]))) =
      (runFlow (pktAB .SYN) [pktBA .SYNACK, pktAB .ACK]).establishmentComplete :=
  ⟨by decide,
   (C5_swept_classification (pktAB .SYN) [pktBA .SYNACK, pktAB .ACK] (by decide)).1⟩

/-- C8: counterexample.  On `[SYN(A→B), RST(B→A)]` the RST arrives in a
pre-CLOSED state (INIT), yet the flow does not end ABORTED with
closeType "abortive": per the taxonomy row `rst_during_handshake` and
the spec's own "RST during handshake" property it ends INVALID with
closeType "invalid" and that reason.  Hence "RST from every pre-CLOSED
state yields ABORTED / closeType abortive" fails for the handshake
states. -/
theorem C8_counterexample :
    (runFlow (pktAB .SYN) [pktBA .RST]).state = TcpState.INVALID ∧
    (finalize (runFlow (pktAB .SYN) [pktBA .RST])).closeType = some "invalid" ∧
    (finalize (runFlow (pktAB .SYN) [pktBA .RST])).invalidReason =
      some "rst_during_handshake" := by
  decide

/-- C8 (amended): an RST from either side pre-empts every other
transition in every pre-terminal state: from ESTABLISHED, FIN_1, FIN_2
or CLOSING (handshake complete, regardless of any pending FIN) it
yields ABORTED and, after finalization, closeType "abortive"; from the
handshake states NEW, INIT, SYN_RCVD it yields INVALID with reason
`rst_during_handshake` and closeType "invalid". -/
theorem C8_rst_preempts (f : MFlow) (s : Side) (h : isTerminalState f.state = false) :
    (isHandshakeState f.state = true →
      (step f s .RST).state = TcpState.INVALID ∧
      (step f s .RST).invalidReason = some "rst_during_handshake" ∧
      (finalize (step f s .RST)).closeType = some "invalid") ∧
    (isHandshakeState f.state = false →
      (step f s .RST).state = TcpState.ABORTED ∧
      (finalize (step f s .RST)).closeType = some "abortive") := by
  cases hst : f.state <;> simp_all [step, finalize, isTerminalState, isHandshakeState]

/-- C8: witness for the amended theorem on an established flow hit by
an RST from the responder. -/
theorem C8_rst_witness :
    isTerminalState (runFlow (pktAB .SYN) [pktBA .SYNACK, pktAB .ACK]).state = false ∧
    (step (runFlow (pktAB .SYN) [pktBA .SYNACK, pktAB .ACK]) Side.responder .RST).state =
      TcpState.ABORTED :=
  ⟨by decide,
   ((C8_rst_preempts (runFlow (pktAB .SYN) [pktBA .SYNACK, pktAB .ACK]) Side.responder
      (by decide)).2 (by decide)).1⟩

/-! ## Packet-filtering worker

Embedding of the worker protocol of BRUSH_SELECTION_GUIDE.md: on
`init` the worker stores the packets and computes `connKeys =
packets.map(p => makeConnectionKey(p.src_ip, p.src_port || 0,
p.dst_ip, p.dst_port || 0))` (lines 415-418); on `filterByKeys` it
builds a `Uint8Array(packets.length)` visibility mask, all ones when
`showAllWhenEmpty` or the key list is empty, else `vis[i] =
keySet.has(connKeys[i])` (lines 420-438). -/

/-- A packet as posted to the worker, ports in their raw JavaScript
shape. -/
structure WPacket where
  src_ip : String
  src_port : JSNum
  dst_ip : String
  dst_port : JSNum
deriving Repr, DecidableEq

/-- JavaScript `p || 0` on a port value: any falsy value (`undefined`,
`null`, NaN, and the number 0 itself) becomes the number 0. -/
def jsOrZero : JSNum → JSNum
  | .num n => if n == 0 then .num 0 else .num n
  | _ => .num 0

/-- Source: `initPackets` (BRUSH_SELECTION_GUIDE.md lines 415-418):
the per-packet connection keys cached at init time. -/
def initConnKeys (packets : List WPacket) : List String :=
  packets.map fun p =>
    makeConnectionKey p.src_ip (jsOrZero p.src_port) p.dst_ip (jsOrZero p.dst_port)

/-- Source: `handleFilterByKeys` (BRUSH_SELECTION_GUIDE.md lines
420-438), with the visibility mask as a list of booleans and the
`Set` membership as list membership. -/
def handleFilterByKeys (packets : List WPacket) (keys : List String)
    (showAllWhenEmpty : Bool) : List Bool :=
  if showAllWhenEmpty || keys.isEmpty then
    List.replicate packets.length true
  else
    (initConnKeys packets).map fun k => keys.contains k

/-- C10: the visibility mask returned for a filter-by-keys request
always has the length of the initialized packet list; when
`showAllWhenEmpty` is set or the key list is empty every packet is
marked visible; otherwise entry `i` of the mask is exactly the
membership of packet `i`'s connection key (the cached
`initConnKeys` entry) in the requested key list. -/
theorem C10_filter_mask (packets : List WPacket) (keys : List String)
    (showAllWhenEmpty : Bool) :
    (handleFilterByKeys packets keys showAllWhenEmpty).length = packets.length ∧
    (showAllWhenEmpty = true ∨ keys = [] →
      handleFilterByKeys packets keys showAllWhenEmpty =
        List.replicate packets.length true) ∧
    (showAllWhenEmpty = false → keys ≠ [] →
      ∀ i : Nat, (handleFilterByKeys packets keys showAllWhenEmpty)[i]? =
        ((initConnKeys packets)[i]?).map fun k => keys.contains k) := by
  refine ⟨?_, ?_, ?_⟩
  · unfold handleFilterByKeys
    split
    · simp
    · simp [initConnKeys]
  · intro h
    unfold handleFilterByKeys
    rcases h with h | h <;> simp [h]
  · intro h1 h2 i
    have hk : keys.isEmpty = false := by
      cases keys with
      | nil => exact absurd rfl h2
      | cons a l => rfl
    unfold handleFilterByKeys
    rw [h1, hk]
    simp [List.getElem?_map]

/-- Two demo packets for the worker. -/
def wDemoPackets : List WPacket :=
  [{ src_ip := hostA, src_port := JSNum.num 51000, dst_ip := hostB,
     dst_port := JSNum.num 80 },
   { src_ip := hostB, src_port := JSNum.num 9, dst_ip := hostA,
     dst_port := JSNum.num 7 }]

/-- A demo key list selecting the first demo packet's connection. -/
def wDemoKeys : List String :=
  [makeConnectionKey hostA (JSNum.num 51000) hostB (JSNum.num 80)]

/-- C10: witness at a concrete request (non-empty key list,
`showAllWhenEmpty` false). -/
theorem C10_filter_witness :
    (handleFilterByKeys wDemoPackets wDemoKeys false).length = wDemoPackets.length ∧
    (handleFilterByKeys wDemoPackets wDemoKeys false)[0]? =
      ((initConnKeys wDemoPackets)[0]?).map (fun k => wDemoKeys.contains k) :=
  ⟨(C10_filter_mask wDemoPackets wDemoKeys false).1,
   (C10_filter_mask wDemoPackets wDemoKeys false).2.2 rfl (by decide) 0⟩
